import Mathlib

/-!
Verification development for the SpikeLeagueScrim bot (`src/main.py`).

The program keeps its state in two SQLite tables: `scrims` (one row per
matchmaking request) and `verifications` (one row per completion
acknowledgment, UNIQUE on `(scrim_id, user_id)`).  We embed that state as a
pure value of type `DB` and translate each database helper and each handler
of `main.py` into a pure function on `DB`.  Python strings are embedded as
Lean `String`s, except for the comma-joined `maps`/`ranks` TEXT columns,
which are embedded as `List Char` so that the join/split round trip of
`create_scrim` / `get_scrim_by_id` can be reasoned about character by
character.  SQLite REAL timestamps are embedded as `Int`: every use in the
source is an order comparison, never arithmetic that would distinguish
floats from an ordered ring.

Handlers that the event loop can suspend mid-way (an `await` between a
status check and the corresponding UPDATE) are embedded as separate step
functions, one per atomic section, so that interleavings of two handlers
can be expressed by composing the steps in event-loop order.
-/

/-- A row of the `scrims` table (see `init_db`, `src/main.py` lines 34-51).
`maps` and `ranks` hold the stored TEXT, i.e. the comma-joined form. -/
structure Scrim where
  id : Int
  guild_id : Option Int
  channel_id : Int
  requester_id : Int
  team_name : String
  format : String
  maps : List Char
  ranks : List Char
  server : String
  datetime : String
  status : String
  booked_by : Option Int
  created_at : Int
  deriving DecidableEq, Repr

/-- A row of the `verifications` table (`init_db`, lines 54-63). -/
structure Verification where
  scrim_id : Int
  user_id : Int
  verified_at : Int
  deriving DecidableEq, Repr

/-- The whole database state: the two tables, in insertion order. -/
structure DB where
  scrims : List Scrim
  acks : List Verification
  deriving DecidableEq, Repr

/-- Python `','.join(parts)` on strings-as-`List Char`. -/
def joinComma : List (List Char) → List Char
  | [] => []
  | [x] => x
  | x :: y :: ys => x ++ ',' :: joinComma (y :: ys)

/-- Python `s.split(',')` on strings-as-`List Char` (non-empty separator:
splits at every comma, keeping empty pieces). -/
def splitComma : List Char → List (List Char)
  | [] => [[]]
  | c :: cs =>
    if c = ',' then [] :: splitComma cs
    else
      match splitComma cs with
      | [] => [[c]]
      | p :: ps => (c :: p) :: ps

/-- Python `s.split(',') if s else []` — the guard used by every reader of
the `maps`/`ranks` columns (`get_scrim_by_id` line 130 and friends). -/
def splitGuard (stored : List Char) : List (List Char) :=
  if stored = [] then [] else splitComma stored

/-- The dictionary `get_scrim_by_id` returns: the row with `maps`/`ranks`
split back into lists and the scrim's `verified_by` user list attached. -/
structure ScrimView where
  id : Int
  guild_id : Option Int
  channel_id : Int
  requester_id : Int
  team_name : String
  format : String
  maps : List (List Char)
  ranks : List (List Char)
  server : String
  datetime : String
  status : String
  booked_by : Option Int
  created_at : Int
  verified_by : List Int
  deriving DecidableEq, Repr

/-- The input dictionary `scrim_data` built in `ScrimView._post_scrim`
(lines 540-553): `maps`/`ranks` still as lists, no `booked_by` key. -/
structure ScrimData where
  id : Int
  guild_id : Option Int
  channel_id : Int
  requester_id : Int
  team_name : String
  format : String
  maps : List (List Char)
  ranks : List (List Char)
  server : String
  datetime : String
  status : String
  created_at : Int
  deriving DecidableEq, Repr

/-- Embeds `create_scrim` (lines 81-113): INSERT of a new row, `maps`/`ranks`
comma-joined, `booked_by` left NULL.  An id collision violates the table's
PRIMARY KEY/UNIQUE constraint, so the INSERT raises and the function
returns `False` with the store unchanged. -/
def create_scrim (db : DB) (d : ScrimData) : DB × Bool :=
  if db.scrims.any (fun s => s.id == d.id) then (db, false)
  else
    ({ db with scrims := db.scrims ++
        [{ id := d.id, guild_id := d.guild_id, channel_id := d.channel_id,
           requester_id := d.requester_id, team_name := d.team_name,
           format := d.format, maps := joinComma d.maps,
           ranks := joinComma d.ranks, server := d.server,
           datetime := d.datetime, status := d.status, booked_by := none,
           created_at := d.created_at }] }, true)

/-- Embeds `get_scrim_by_id` (lines 115-141): fetch the row, split `maps` and
`ranks` (empty TEXT gives the empty list), attach `verified_by`. -/
def get_scrim_by_id (db : DB) (scrim_id : Int) : Option ScrimView :=
  match db.scrims.find? (fun s => s.id == scrim_id) with
  | none => none
  | some row =>
    some { id := row.id, guild_id := row.guild_id,
           channel_id := row.channel_id, requester_id := row.requester_id,
           team_name := row.team_name, format := row.format,
           maps := splitGuard row.maps, ranks := splitGuard row.ranks,
           server := row.server, datetime := row.datetime,
           status := row.status, booked_by := row.booked_by,
           created_at := row.created_at,
           verified_by := (db.acks.filter
             (fun a => a.scrim_id == scrim_id)).map (·.user_id) }

/-- Embeds `update_scrim_status` (lines 143-166): an UNCONDITIONAL UPDATE.  When
`booked_by` is passed (not None) both columns are set; when it is None only
`status` is set and `booked_by` keeps its previous value.  No precondition
on the current status is checked anywhere in this function. -/
def update_scrim_status (db : DB) (scrim_id : Int) (status : String)
    (booked_by : Option Int) : DB :=
  match booked_by with
  | some b =>
    { db with scrims := db.scrims.map (fun s =>
        if s.id = scrim_id then { s with status := status, booked_by := some b }
        else s) }
  | none =>
    { db with scrims := db.scrims.map (fun s =>
        if s.id = scrim_id then { s with status := status } else s) }

/-- Embeds `add_verification` (lines 168-186): `INSERT OR IGNORE` against the
UNIQUE `(scrim_id, user_id)` constraint; returns whether a row was
actually inserted. -/
def add_verification (db : DB) (scrim_id user_id now : Int) : DB × Bool :=
  if db.acks.any (fun a => a.scrim_id == scrim_id && a.user_id == user_id)
  then (db, false)
  else ({ db with acks := db.acks ++
          [{ scrim_id := scrim_id, user_id := user_id, verified_at := now }] },
        true)

/-- Embeds `get_verification_count` (lines 188-202): COUNT of acks for a scrim. -/
def get_verification_count (db : DB) (scrim_id : Int) : Nat :=
  (db.acks.filter (fun a => a.scrim_id == scrim_id)).length

/-- Embeds `user_has_verified` (lines 204-221). -/
def user_has_verified (db : DB) (scrim_id user_id : Int) : Bool :=
  db.acks.any (fun a => a.scrim_id == scrim_id && a.user_id == user_id)

/-- The status set `('open', 'pending', 'booked')` of the active-scrim
query (line 231). -/
def activeStatuses : List String := ["open", "pending", "booked"]

/-- Embeds `ORDER BY created_at DESC LIMIT 1` over a candidate list: the row with
the greatest `created_at` (ties broken arbitrarily by SQLite; we keep the
earliest such row). -/
def maxByCreated : List Scrim → Option Scrim
  | [] => none
  | s :: rest =>
    match maxByCreated rest with
    | none => some s
    | some m => if s.created_at ≥ m.created_at then some s else some m

/-- Embeds `get_active_scrim_for_user` (lines 223-248): the most recent row of the
user with status in `('open', 'pending', 'booked')`, or none.  (Python also
splits `maps`/`ranks` in the returned dict; callers of this function only
use `id`, `status` and `channel_id`, which the split does not affect.) -/
def get_active_scrim_for_user (db : DB) (user_id : Int) : Option Scrim :=
  maxByCreated (db.scrims.filter (fun s =>
    s.requester_id == user_id && activeStatuses.contains s.status))

/-- Embeds `get_expired_scrims` (lines 250-276): all rows with status `'open'`
created strictly before `now - expiry`. -/
def get_expired_scrims (db : DB) (now expiry : Int) : List Scrim :=
  db.scrims.filter (fun s => s.status == "open" && s.created_at < now - expiry)

/-- Embeds `expire_user_scrims` (lines 278-318): select every `'open'` row whose
requester is in `user_ids` (minus the excluded id), then set each selected
row's status to `'expired'` by id, returning the selected rows as they were
read.  `user_ids` may contain NULLs (`match_completed` passes
`scrim['booked_by']` unchecked), and `x IN (..., NULL)` never matches the
NULL, hence `List (Option Int)`. -/
def expire_user_scrims (db : DB) (user_ids : List (Option Int))
    (exclude_id : Option Int) : DB × List Scrim :=
  if user_ids.isEmpty then (db, [])
  else
    let matched := db.scrims.filter (fun s =>
      user_ids.contains (some s.requester_id) && s.status == "open" &&
        (match exclude_id with
         | some e => s.id != e
         | none => true))
    (matched.foldl (fun acc m => update_scrim_status acc m.id "expired" none)
       db,
     matched)

/-! ## Handlers

Each handler of `main.py` is embedded below.  Where the source contains an
`await` between reading the record and writing it, the handler is split
into one function per atomic section (the asyncio event loop can only
interleave other tasks at an `await`). -/

/-- Outcomes of the `Book Scrim` button (`BookingView.book_button`,
lines 567-593). -/
inductive BookResult
  | selfBooking
  | notFoundInDb
  | notAvailable
  | fetchFailed
  | ok
  deriving DecidableEq, Repr

/-- First atomic section of `book_button` (lines 568-583): the
self-booking check, the record lookup and the status precondition check.
Returns `none` when the handler will proceed to book.  The section ends at
`await bot.fetch_user(...)` (line 580), BEFORE the status update. -/
def book_button_check (db : DB) (msg_id : Int) (view_requester actor : Int) :
    Option BookResult :=
  if actor == view_requester then some .selfBooking
  else
    match get_scrim_by_id db msg_id with
    | none => some .notFoundInDb
    | some v => if v.status ≠ "open" then some .notAvailable else none

/-- Second atomic section of `book_button` (line 588):
`update_scrim_status(scrim['id'], 'pending', challenger.id)`. -/
def book_button_commit (db : DB) (msg_id actor : Int) : DB :=
  update_scrim_status db msg_id "pending" (some actor)

/-- The whole `book_button` handler, run without interference between its
two atomic sections. -/
def book_button (db : DB) (msg_id : Int) (view_requester actor : Int) :
    DB × BookResult :=
  match book_button_check db msg_id view_requester actor with
  | some r => (db, r)
  | none => (book_button_commit db msg_id actor, .ok)

/-- The status write of `BookingView._ready_check` on DM failure (line 619)
and on timeout (line 651): `update_scrim_status(scrim['id'], 'open', None)`.
Note the call passes `None`, which `update_scrim_status` treats as "leave
the `booked_by` column alone"; no precondition on the current status is
checked. -/
def ready_check_timeout (db : DB) (scrim_id : Int) : DB :=
  update_scrim_status db scrim_id "open" none

/-- The database writes of `BookingView._ready_check` once both parties
confirmed (lines 662-683): first cascade-expire both parties' other open
scrims, then set this scrim to `'booked'` with `booked_by` = challenger. -/
def ready_check_success (db : DB) (scrim_id requester challenger : Int) : DB :=
  let r := expire_user_scrims db [some requester, some challenger]
    (some scrim_id)
  update_scrim_status r.1 scrim_id "booked" (some challenger)

/-- Outcomes of the `Match Completed` button
(`MatchVerificationView.match_completed`, lines 705-760). -/
inductive CompletionResult
  | notParticipant
  | recordNotFound
  | conflict
  | alreadyConfirmed
  | couldNotRecord
  | waiting
  | completed
  deriving DecidableEq, Repr

/-- Embeds `MatchVerificationView.match_completed` (lines 705-760).  The source
performs no `await` between entering the handler and the `'played'` status
update (every `await` is either in a rejection branch, after which the
handler returns, or after the update), so the whole decision is one atomic
section and is embedded as one function.  `view_requester`/`view_challenger`
are the ids captured by the view at booking time. -/
def match_completed (db : DB) (scrim_id : Int)
    (view_requester view_challenger actor now : Int) : DB × CompletionResult :=
  if actor ≠ view_requester ∧ actor ≠ view_challenger then
    (db, .notParticipant)
  else
    match get_scrim_by_id db scrim_id with
    | none => (db, .recordNotFound)
    | some scrim =>
      if scrim.status ≠ "booked" then (db, .conflict)
      else if user_has_verified db scrim_id actor then (db, .alreadyConfirmed)
      else
        let r := add_verification db scrim_id actor now
        if !r.2 then (r.1, .couldNotRecord)
        else
          let c := get_verification_count r.1 scrim_id
          if c ≥ 2 then
            let db2 := update_scrim_status r.1 scrim_id "played" none
            let r3 := expire_user_scrims db2
              [some scrim.requester_id, scrim.booked_by] (some scrim_id)
            (r3.1, .completed)
          else (r.1, .waiting)

/-- The check half of the `/scrim` command (`create_scrim_cmd`,
lines 763-776): reject when the user already has an active scrim.  The
record itself is only inserted much later, by `ScrimView._post_scrim` at
the end of the interactive selection flow (i.e. by `create_scrim`), with
no second check. -/
def create_scrim_cmd_check (db : DB) (user_id : Int) : Bool :=
  (get_active_scrim_for_user db user_id).isSome

/-- Outcomes of the `/cancel_scrim` command (lines 778-807). -/
inductive CancelResult
  | noActive
  | conflictNotOpen
  | ok
  deriving DecidableEq, Repr

/-- Embeds `/cancel_scrim` (lines 778-807): look up the user's active scrim,
reject unless its status is `'open'`, else set it to `'cancelled'`. -/
def cancel_scrim (db : DB) (user_id : Int) : DB × CancelResult :=
  match get_active_scrim_for_user db user_id with
  | none => (db, .noActive)
  | some active =>
    if active.status ≠ "open" then (db, .conflictNotOpen)
    else (update_scrim_status db active.id "cancelled" none, .ok)

/-- One pass of the `expire_old_scrims` background task (lines 403-450),
run without interference: select the stale open scrims
(`expiry_time = 12*60*60`), then set each selected row to `'expired'`.
In the real loop each iteration also awaits message edits and DMs, so other
handlers can run between the selection and any individual update; the
interleaved behaviour is treated separately. -/
def expire_old_scrims_pass (db : DB) (now : Int) : DB :=
  (get_expired_scrims db now (12 * 60 * 60)).foldl
    (fun acc s => update_scrim_status acc s.id "expired" none) db

/-! ## Helper definitions used by the statements -/

/-- All the attributes of a scrim row other than `status` and `booked_by`:
the ones §3 of the design calls immutable. -/
def FrameAgrees (s t : Scrim) : Prop :=
  t.id = s.id ∧ t.guild_id = s.guild_id ∧ t.channel_id = s.channel_id ∧
  t.requester_id = s.requester_id ∧ t.team_name = s.team_name ∧
  t.format = s.format ∧ t.maps = s.maps ∧ t.ranks = s.ranks ∧
  t.server = s.server ∧ t.datetime = s.datetime ∧
  t.created_at = s.created_at

/-- The stored status of the row with the given id (first match, as in the
SQL lookups by primary key). -/
def scrim_status (db : DB) (scrim_id : Int) : Option String :=
  (db.scrims.find? (fun s => s.id == scrim_id)).map Scrim.status

/-- The stored `booked_by` of the row with the given id. -/
def scrim_booked_by (db : DB) (scrim_id : Int) : Option (Option Int) :=
  (db.scrims.find? (fun s => s.id == scrim_id)).map Scrim.booked_by

/-- A concrete scrim row, for witnesses and counterexamples. -/
def sampleScrim (id requester : Int) (st : String) (bb : Option Int)
    (created : Int) : Scrim :=
  { id := id, guild_id := some 7, channel_id := 5, requester_id := requester,
    team_name := "T", format := "Best of 1", maps := ['A'], ranks := ['G'],
    server := "Dubai", datetime := "today", status := st, booked_by := bb,
    created_at := created }

/-- A concrete creation intent, for witnesses and counterexamples. -/
def sampleData (id requester : Int) (maps ranks : List (List Char)) :
    ScrimData :=
  { id := id, guild_id := some 7, channel_id := 5, requester_id := requester,
    team_name := "T", format := "Best of 1", maps := maps, ranks := ranks,
    server := "Dubai", datetime := "today", status := "open",
    created_at := 0 }

/-! ## Lemmas about the comma join/split pair -/

lemma splitComma_ne_nil (cs : List Char) : splitComma cs ≠ [] := by
  induction cs with
  | nil => simp [splitComma]
  | cons c cs ih =>
    by_cases hc : c = ','
    · simp [splitComma, hc]
    · simp only [splitComma, if_neg hc]
      cases h : splitComma cs with
      | nil => exact absurd h ih
      | cons p ps => simp

lemma splitComma_no_comma (x : List Char) (hx : ',' ∉ x) :
    splitComma x = [x] := by
  induction x with
  | nil => simp [splitComma]
  | cons c cs ih =>
    have hc : c ≠ ',' := fun h => hx (h ▸ List.mem_cons_self c cs)
    have hcs : ',' ∉ cs := fun h => hx (List.mem_cons_of_mem c h)
    simp only [splitComma, if_neg hc, ih hcs]

lemma splitComma_append (x cs : List Char) (hx : ',' ∉ x) :
    splitComma (x ++ ',' :: cs) = x :: splitComma cs := by
  induction x with
  | nil => simp [splitComma]
  | cons c y ih =>
    have hc : c ≠ ',' := fun h => hx (h ▸ List.mem_cons_self c y)
    have hy : ',' ∉ y := fun h => hx (List.mem_cons_of_mem c h)
    have harr : y.append (',' :: cs) = y ++ ',' :: cs := rfl
    simp only [List.cons_append, splitComma, if_neg hc, harr, ih hy]

lemma splitComma_joinComma (l : List (List Char)) (hl : l ≠ [])
    (hcf : ∀ x ∈ l, ',' ∉ x) : splitComma (joinComma l) = l := by
  induction l with
  | nil => exact absurd rfl hl
  | cons x xs ih =>
    cases xs with
    | nil =>
      simp only [joinComma]
      exact splitComma_no_comma x (hcf x (List.mem_cons_self x []))
    | cons y ys =>
      have hx : ',' ∉ x := hcf x (List.mem_cons_self x (y :: ys))
      have hrest : ∀ z ∈ y :: ys, ',' ∉ z := fun z hz =>
        hcf z (List.mem_cons_of_mem x hz)
      simp only [joinComma, splitComma_append x _ hx,
        ih (by simp) hrest]

lemma joinComma_ne_nil (l : List (List Char)) (hl : l ≠ [])
    (hne : ∀ x ∈ l, x ≠ []) : joinComma l ≠ [] := by
  cases l with
  | nil => exact absurd rfl hl
  | cons x xs =>
    cases xs with
    | nil => exact hne x (List.mem_cons_self x [])
    | cons y ys =>
      simp only [joinComma]
      cases x <;> simp

/-! ## Lemmas about status updates -/

/-- Setting only the status of a row keeps its id. -/
lemma setStatus_id (s : Scrim) (st : String) :
    ({ s with status := st } : Scrim).id = s.id := rfl

/-- Iterating `update_scrim_status ... st none` over a list of rows is the
same as one map that sets the status of every row whose id occurs in the
list. -/
lemma foldl_update_eq_map (db : DB) (ms : List Scrim) (st : String) :
    ms.foldl (fun acc m => update_scrim_status acc m.id st none) db
    = { db with scrims := db.scrims.map (fun s =>
        if ms.any (fun m => m.id == s.id) then { s with status := st }
        else s) } := by
  induction ms generalizing db with
  | nil => simp
  | cons m ms ih =>
    simp only [List.foldl_cons, ih]
    simp only [update_scrim_status, List.map_map]
    congr 1
    apply List.map_congr_left
    intro s _
    by_cases h : s.id = m.id
    · simp only [Function.comp_apply, if_pos h, List.any_cons]
      have h1 : (m.id == ({ s with status := st } : Scrim).id) = true := by
        simp [setStatus_id, h]
      have h2 : (m.id == s.id) = true := by simp [h]
      simp only [setStatus_id, h1, h2, Bool.true_or]
      split <;> rfl
    · simp only [Function.comp_apply, if_neg h, List.any_cons]
      have h2 : (m.id == s.id) = false := by
        simp only [beq_eq_false_iff_ne, ne_eq]
        exact fun hh => h hh.symm
      simp [h2]

/-- When row ids are distinct, membership of a row's id in a filtered
selection of the same table is the same as the row satisfying the
filter. -/
lemma any_filter_id_eq (l : List Scrim) (p : Scrim → Bool)
    (hnd : (l.map (·.id)).Nodup) (s : Scrim) (hs : s ∈ l) :
    ((l.filter p).any (fun m => m.id == s.id)) = p s := by
  cases hp : p s with
  | true =>
    have : s ∈ l.filter p := List.mem_filter.mpr ⟨hs, hp⟩
    simp only [List.any_eq_true]
    exact ⟨s, this, by simp⟩
  | false =>
    by_contra hany
    simp only [Bool.not_eq_false, List.any_eq_true] at hany
    obtain ⟨m, hm, hmid⟩ := hany
    have hml := List.mem_filter.mp hm
    have : m = s := List.inj_on_of_nodup_map hnd hml.1 hs
      (by simpa using hmid)
    rw [this] at hml
    rw [hml.2] at hp
    exact absurd hp (by simp)

/-- What `expire_user_scrims` does to the `scrims` table when row ids are
distinct: every open row of one of the given users, except the excluded
id, becomes `'expired'`; every other row is untouched. -/
lemma expire_user_scrims_eq (db : DB) (uids : List (Option Int))
    (ex : Option Int) (hnd : (db.scrims.map (·.id)).Nodup)
    (huids : uids.isEmpty = false) :
    (expire_user_scrims db uids ex).1
    = { db with scrims := db.scrims.map (fun s =>
        if uids.contains (some s.requester_id) && s.status == "open" &&
           (match ex with | some e => s.id != e | none => true)
        then { s with status := "expired" } else s) } := by
  simp only [expire_user_scrims, huids, Bool.false_eq_true, if_false,
    foldl_update_eq_map]
  congr 1
  apply List.map_congr_left
  intro s hs
  rw [any_filter_id_eq _ _ hnd s hs]

/-- Embedded `expire_user_scrims` leaves the `verifications` table alone. -/
lemma expire_user_scrims_acks (db : DB) (uids : List (Option Int))
    (ex : Option Int) : (expire_user_scrims db uids ex).1.acks = db.acks := by
  simp only [expire_user_scrims]
  split
  · rfl
  · rw [foldl_update_eq_map]

/-- What one uninterleaved sweeper pass does to the `scrims` table when row
ids are distinct: exactly the open rows created more than 12 hours before
`now` become `'expired'`. -/
lemma expire_old_scrims_pass_eq (db : DB) (now : Int)
    (hnd : (db.scrims.map (·.id)).Nodup) :
    expire_old_scrims_pass db now
    = { db with scrims := db.scrims.map (fun s =>
        if s.status == "open" && s.created_at < now - 12 * 60 * 60
        then { s with status := "expired" } else s) } := by
  simp only [expire_old_scrims_pass, foldl_update_eq_map]
  congr 1
  apply List.map_congr_left
  intro s hs
  rw [get_expired_scrims, any_filter_id_eq _ _ hnd s hs]

/-! ## Generic support lemmas -/

/-- `find?` commutes with a map that does not change the predicate's
verdict (used for maps that only rewrite `status`/`booked_by`, which never
change a row's id). -/
lemma find?_map_invariant (l : List Scrim) (p : Scrim → Bool)
    (g : Scrim → Scrim) (hp : ∀ s, p (g s) = p s) :
    (l.map g).find? p = (l.find? p).map g := by
  induction l with
  | nil => rfl
  | cons x xs ih =>
    simp only [List.map_cons, List.find?_cons]
    rw [hp x]
    cases hpx : p x
    · simpa using ih
    · rfl

/-- Helper `maxByCreated` returns a row exactly when the candidate list is
non-empty. -/
lemma maxByCreated_isSome_iff (l : List Scrim) :
    (maxByCreated l).isSome = true ↔ l ≠ [] := by
  cases l with
  | nil => simp [maxByCreated]
  | cons s rest =>
    simp only [maxByCreated]
    constructor
    · intro _
      simp
    · intro _
      cases h : maxByCreated rest
      · simp
      · simp only []
        split <;> simp

/-- Pointwise relation between a list and its image under a map. -/
lemma forall₂_map_self {α : Type} {P : α → α → Prop} (l : List α)
    (f : α → α) (h : ∀ s, P s (f s)) : List.Forall₂ P l (l.map f) := by
  induction l with
  | nil => exact List.Forall₂.nil
  | cons x xs ih => exact List.Forall₂.cons (h x) ih

/-! ## Claim theorems -/

/-- C8: `add_verification` is idempotent per `(scrimId, userId)`: starting
from a scrim with no acks, calling it twice with the same pair inserts on
the first call (`inserted = true`), refuses on the second
(`inserted = false`), and leaves exactly one ack on record
(`ackCount = 1`, not 2). -/
theorem add_verification_idempotent (db : DB) (scrim_id u n1 n2 : Int)
    (hcount : get_verification_count db scrim_id = 0) :
    (add_verification db scrim_id u n1).2 = true ∧
    (add_verification (add_verification db scrim_id u n1).1 scrim_id u n2).2
      = false ∧
    get_verification_count
      (add_verification (add_verification db scrim_id u n1).1 scrim_id u n2).1
      scrim_id = 1 := by
  have hempty : db.acks.filter (fun a => a.scrim_id == scrim_id) = [] :=
    List.length_eq_zero.mp hcount
  have hnot := List.filter_eq_nil_iff.mp hempty
  have hany : (db.acks.any
      (fun a => a.scrim_id == scrim_id && a.user_id == u)) = false :=
    List.any_eq_false.mpr (fun a ha => by
      have := hnot a ha
      simp only [Bool.and_eq_true, not_and]
      intro h
      exact absurd h this)
  simp only [add_verification, hany, Bool.false_eq_true, if_false,
    List.any_append, get_verification_count, List.filter_append]
  simp [hempty, hany]

/-- C8 witness: the theorem at a concrete store with a booked scrim and no
acks. -/
theorem add_verification_idempotent_w :
    (add_verification
        { scrims := [sampleScrim 1 10 "booked" (some 20) 0], acks := [] }
        1 10 3).2 = true ∧
    (add_verification (add_verification
        { scrims := [sampleScrim 1 10 "booked" (some 20) 0], acks := [] }
        1 10 3).1 1 10 4).2 = false ∧
    get_verification_count
      (add_verification (add_verification
        { scrims := [sampleScrim 1 10 "booked" (some 20) 0], acks := [] }
        1 10 3).1 1 10 4).1 1 = 1 :=
  add_verification_idempotent
    { scrims := [sampleScrim 1 10 "booked" (some 20) 0], acks := [] }
    1 10 3 4 (by decide)

/-- C9: `update_scrim_status` changes nothing but `status` and `booked_by`
(and leaves the ack table alone); called without a counterpart
(`booked_by = None`) it also leaves `booked_by` untouched; the cascade
`expire_user_scrims` changes nothing but `status`. -/
theorem immutable_fields_frame (db : DB) (scrim_id : Int) (st : String)
    (bb : Option Int) (uids : List (Option Int)) (ex : Option Int) :
    List.Forall₂ FrameAgrees db.scrims
      (update_scrim_status db scrim_id st bb).scrims ∧
    (update_scrim_status db scrim_id st bb).acks = db.acks ∧
    List.Forall₂ (fun s t => t.booked_by = s.booked_by) db.scrims
      (update_scrim_status db scrim_id st none).scrims ∧
    List.Forall₂ (fun s t => FrameAgrees s t ∧ t.booked_by = s.booked_by)
      db.scrims (expire_user_scrims db uids ex).1.scrims ∧
    (expire_user_scrims db uids ex).1.acks = db.acks := by
  refine ⟨?_, ?_, ?_, ?_, expire_user_scrims_acks db uids ex⟩
  · cases bb with
    | none =>
      exact forall₂_map_self _ _ (fun s => by
        split <;> simp [FrameAgrees])
    | some b =>
      exact forall₂_map_self _ _ (fun s => by
        split <;> simp [FrameAgrees])
  · cases bb <;> rfl
  · exact forall₂_map_self _ _ (fun s => by
      split <;> rfl)
  · simp only [expire_user_scrims]
    split
    · exact List.forall₂_same.mpr (fun s _ => ⟨by simp [FrameAgrees], rfl⟩)
    · rw [foldl_update_eq_map]
      exact forall₂_map_self _ _ (fun s => by
        split <;> simp [FrameAgrees])

/-- C3: when both parties confirm within the window, the final state has
the triggering scrim `booked` with counterpart = challenger, and exactly
the other open scrims requested by either party `expired`; every other row
is untouched and the ack table is untouched.  (The source runs the cascade
first and then sets `booked`; the cascade excludes the triggering scrim,
so the final state is as the claim describes.) -/
theorem ready_check_books_and_cascades (db : DB)
    (scrim_id requester challenger : Int)
    (hnd : (db.scrims.map (·.id)).Nodup) :
    (ready_check_success db scrim_id requester challenger).scrims
      = db.scrims.map (fun s =>
          if s.id = scrim_id then
            { s with status := "booked", booked_by := some challenger }
          else if (s.requester_id = requester ∨ s.requester_id = challenger)
              ∧ s.status = "open" then
            { s with status := "expired" }
          else s) ∧
    (ready_check_success db scrim_id requester challenger).acks = db.acks := by
  constructor
  · simp only [ready_check_success]
    rw [expire_user_scrims_eq db [some requester, some challenger]
      (some scrim_id) hnd (by rfl)]
    simp only [update_scrim_status, List.map_map]
    apply List.map_congr_left
    intro s _
    simp only [Function.comp_apply]
    have hiff : (([some requester, some challenger].contains
          (some s.requester_id) && s.status == "open"
          && (s.id != scrim_id)) = true)
        ↔ ((s.requester_id = requester ∨ s.requester_id = challenger)
            ∧ s.status = "open" ∧ ¬ s.id = scrim_id) := by
      simp only [Bool.and_eq_true, List.contains_cons, List.contains_nil,
        Bool.or_false, Bool.or_eq_true, beq_iff_eq, Option.some.injEq,
        bne_iff_ne, ne_eq]
      tauto
    by_cases h1 : s.id = scrim_id
    · have hc : ([some requester, some challenger].contains
          (some s.requester_id) && s.status == "open"
          && (s.id != scrim_id)) = false := by
        cases hcond : ([some requester, some challenger].contains
            (some s.requester_id) && s.status == "open"
            && (s.id != scrim_id))
        · rfl
        · exact absurd (hiff.mp hcond).2.2 (by simp [h1])
      simp [hc, h1]
    · by_cases h2 : (s.requester_id = requester
          ∨ s.requester_id = challenger) ∧ s.status = "open"
      · have hc := hiff.mpr ⟨h2.1, h2.2, h1⟩
        simp [hc, h1, h2]
      · have hc : ([some requester, some challenger].contains
            (some s.requester_id) && s.status == "open"
            && (s.id != scrim_id)) = false := by
          cases hcond : ([some requester, some challenger].contains
              (some s.requester_id) && s.status == "open"
              && (s.id != scrim_id))
          · rfl
          · have h3 := hiff.mp hcond
            exact absurd ⟨h3.1, h3.2.1⟩ h2
        simp [hc, h1, h2]
  · simp only [ready_check_success, update_scrim_status]
    exact expire_user_scrims_acks db _ _

/-- C3 witness: a pending scrim (id 1) of requester 10 booked by 20, while
requester 10 also has another open scrim (id 2) and a stranger has an open
scrim (id 3): the pass books id 1 for 20, expires id 2, leaves id 3. -/
theorem ready_check_books_and_cascades_w :
    (ready_check_success
      { scrims := [sampleScrim 1 10 "pending" (some 20) 0,
                   sampleScrim 2 10 "open" none 0,
                   sampleScrim 3 99 "open" none 0], acks := [] }
      1 10 20).scrims.map (fun s => (s.id, s.status, s.booked_by))
      = [(1, "booked", some 20), (2, "expired", none),
         (3, "open", none)] := by
  have h := ready_check_books_and_cascades
    { scrims := [sampleScrim 1 10 "pending" (some 20) 0,
                 sampleScrim 2 10 "open" none 0,
                 sampleScrim 3 99 "open" none 0], acks := [] }
    1 10 20 (by decide)
  rw [h.1]
  rfl

/-- C7 amended: one sweeper pass, run without interference, transitions to
`expired` exactly the rows whose status is `open` and whose creation
timestamp is more than 12 hours (43200 s) before the selection time, and
changes nothing else — in particular it leaves every `pending` and
`booked` row alone.  (Under interleaving the second half of the original
claim fails: see the counterexample.) -/
theorem sweeper_pass_exact (db : DB) (now : Int)
    (hnd : (db.scrims.map (·.id)).Nodup) :
    expire_old_scrims_pass db now
    = { db with scrims := db.scrims.map (fun s =>
        if s.status = "open" ∧ s.created_at < now - 12 * 60 * 60
        then { s with status := "expired" } else s) } := by
  rw [expire_old_scrims_pass_eq db now hnd]
  congr 1
  apply List.map_congr_left
  intro s _
  have hiff : ((s.status == "open"
        && s.created_at < now - 12 * 60 * 60) = true)
      ↔ (s.status = "open" ∧ s.created_at < now - 12 * 60 * 60) := by
    simp [Bool.and_eq_true]
  by_cases h : s.status = "open" ∧ s.created_at < now - 12 * 60 * 60
  · simp [hiff.mpr h, h]
  · cases hcond : (s.status == "open" && s.created_at < now - 12 * 60 * 60)
    · have h' : ¬(s.status = "open" ∧ s.created_at < now - 43200) := by
        simpa using h
      simp [hcond, h']
    · exact absurd (hiff.mp hcond) h

/-- C7 witness: at `now = 50000` with the 12-hour threshold (cutoff 6800),
a stale open scrim (created 0) is expired, a fresh open one (created
10000) stays open, and a stale pending one stays pending. -/
theorem sweeper_pass_exact_w :
    (expire_old_scrims_pass
      { scrims := [sampleScrim 1 10 "open" none 0,
                   sampleScrim 2 11 "open" none 10000,
                   sampleScrim 3 12 "pending" (some 9) 0], acks := [] }
      50000).scrims.map (fun s => (s.id, s.status))
      = [(1, "expired"), (2, "open"), (3, "pending")] := by
  have h := sweeper_pass_exact
    { scrims := [sampleScrim 1 10 "open" none 0,
                 sampleScrim 2 11 "open" none 10000,
                 sampleScrim 3 12 "pending" (some 9) 0], acks := [] }
    50000 (by decide)
  rw [h]
  rfl

/-- C7 counterexample to the claim as stated ("the sweeper never changes
the status of a pending or booked record, in any reachable state").  The
sweeper's loop (lines 409-445) selects its victims once, then awaits
message edits and DMs between the per-record status updates, so another
handler can run in between.  Trace: scrims 1 and 2 are open and stale; the
sweeper selects both; it expires scrim 1; during the awaits a challenger
(user 30) books scrim 2, making it `pending`; the sweeper then
unconditionally expires scrim 2 — a pending record changed by the
sweeper. -/
theorem sweeper_clobbers_pending_cex :
    (get_expired_scrims
      { scrims := [sampleScrim 1 10 "open" none 0,
                   sampleScrim 2 11 "open" none 0], acks := [] }
      50000 43200).map Scrim.id = [1, 2] ∧
    scrim_status
      ((book_button
        (update_scrim_status
          { scrims := [sampleScrim 1 10 "open" none 0,
                       sampleScrim 2 11 "open" none 0], acks := [] }
          1 "expired" none)
        2 11 30).1) 2 = some "pending" ∧
    scrim_status
      (update_scrim_status
        ((book_button
          (update_scrim_status
            { scrims := [sampleScrim 1 10 "open" none 0,
                         sampleScrim 2 11 "open" none 0], acks := [] }
            1 "expired" none)
          2 11 30).1)
        2 "expired" none) 2 = some "expired" := by
  refine ⟨rfl, rfl, rfl⟩

/-- C10 amended: for a creation intent whose `maps` and `ranks` are
non-empty lists of NON-EMPTY names containing no comma (true of the fixed
map and rank enumerations) and whose id is fresh, `create_scrim` followed
by `get_scrim_by_id` returns the same `maps` and `ranks` lists, in
order. -/
theorem maps_ranks_roundtrip (db : DB) (d : ScrimData)
    (hid : db.scrims.any (fun s => s.id == d.id) = false)
    (hm : d.maps ≠ []) (hr : d.ranks ≠ [])
    (hmok : ∀ x ∈ d.maps, x ≠ [] ∧ ',' ∉ x)
    (hrok : ∀ x ∈ d.ranks, x ≠ [] ∧ ',' ∉ x) :
    (get_scrim_by_id (create_scrim db d).1 d.id).map ScrimView.maps
      = some d.maps ∧
    (get_scrim_by_id (create_scrim db d).1 d.id).map ScrimView.ranks
      = some d.ranks := by
  have hpre : db.scrims.find? (fun s => s.id == d.id) = none :=
    List.find?_eq_none.mpr (fun x hx => by
      have := List.any_eq_false.mp hid x hx
      simpa using this)
  have hjm : joinComma d.maps ≠ [] :=
    joinComma_ne_nil _ hm (fun x hx => (hmok x hx).1)
  have hjr : joinComma d.ranks ≠ [] :=
    joinComma_ne_nil _ hr (fun x hx => (hrok x hx).1)
  simp only [create_scrim, hid, Bool.false_eq_true, if_false,
    get_scrim_by_id, List.find?_append, hpre, Option.none_or,
    List.find?_cons, beq_self_eq_true]
  simp [splitGuard, hjm, hjr,
    splitComma_joinComma d.maps hm (fun x hx => (hmok x hx).2),
    splitComma_joinComma d.ranks hr (fun x hx => (hrok x hx).2)]

/-- C10 witness: the round trip at a concrete intent with two maps and one
rank. -/
theorem maps_ranks_roundtrip_w :
    (get_scrim_by_id (create_scrim { scrims := [], acks := [] }
        (sampleData 1 10 [['A'], ['B', 'i', 'n', 'd']] [['G']])).1
        1).map ScrimView.maps
      = some [['A'], ['B', 'i', 'n', 'd']] ∧
    (get_scrim_by_id (create_scrim { scrims := [], acks := [] }
        (sampleData 1 10 [['A'], ['B', 'i', 'n', 'd']] [['G']])).1
        1).map ScrimView.ranks
      = some [['G']] :=
  maps_ranks_roundtrip { scrims := [], acks := [] }
    (sampleData 1 10 [['A'], ['B', 'i', 'n', 'd']] [['G']])
    (by decide) (by decide) (by decide) (by decide) (by decide)

/-- C10 counterexample to the claim as stated: `maps = [""]` is a
non-empty list whose single name contains no comma, yet the round trip
loses it — the stored TEXT is the empty string, and every reader turns an
empty stored TEXT into the empty list (`x.split(',') if x else []`), so
`get_scrim_by_id` returns `maps = []`, not `[""]`. -/
theorem roundtrip_empty_name_cex :
    (sampleData 1 10 [[]] [['G']]).maps ≠ [] ∧
    (∀ x ∈ (sampleData 1 10 [[]] [['G']]).maps, ',' ∉ x) ∧
    (get_scrim_by_id (create_scrim { scrims := [], acks := [] }
        (sampleData 1 10 [[]] [['G']])).1 1).map ScrimView.maps
      = some [] ∧
    some ([] : List (List Char)) ≠ some (sampleData 1 10 [[]] [['G']]).maps := by
  exact ⟨by decide, by decide, rfl, by decide⟩

/-- C5 amended: the `/scrim` command's guard rejects exactly when the
requester currently has a scrim with status in
`{open, pending, booked}`, and the active-scrim lookup returns at most one
record (it is a `LIMIT 1` query).  The at-most-one-active invariant of the
original claim does NOT survive every operation sequence, because the
guard runs at `/scrim` time while the INSERT happens at the end of the
multi-step creation flow with no re-check: see the counterexample. -/
theorem active_check_iff (db : DB) (u : Int) :
    (create_scrim_cmd_check db u = true
      ↔ ∃ s ∈ db.scrims, s.requester_id = u ∧ s.status ∈ activeStatuses) ∧
    (get_active_scrim_for_user db u).toList.length ≤ 1 := by
  constructor
  · rw [create_scrim_cmd_check, get_active_scrim_for_user,
      maxByCreated_isSome_iff]
    constructor
    · intro hne
      obtain ⟨a, ha⟩ := List.exists_mem_of_ne_nil _ hne
      have hm := List.mem_filter.mp ha
      have hand := hm.2
      rw [Bool.and_eq_true] at hand
      refine ⟨a, hm.1, by simpa using hand.1, ?_⟩
      have hc := hand.2
      simp only [activeStatuses, List.contains_cons, List.contains_nil,
        Bool.or_false, Bool.or_eq_true, beq_iff_eq] at hc
      simp only [activeStatuses, List.mem_cons, List.not_mem_nil, or_false]
      tauto
    · rintro ⟨s, hs, hu, hst⟩ hnil
      have hnone := List.filter_eq_nil_iff.mp hnil s hs
      have hb : (s.requester_id == u
          && activeStatuses.contains s.status) = true := by
        simp only [activeStatuses, List.mem_cons, List.not_mem_nil,
          or_false] at hst
        rcases hst with h | h | h <;>
          simp [activeStatuses, beq_iff_eq, hu, List.contains_cons, h]
      exact absurd hb hnone
  · cases get_active_scrim_for_user db u <;> simp

/-- C5 counterexample to the claim as stated ("for every user and after
every sequence of operations, the user has at most one non-terminal
scrim").  The guard runs in `create_scrim_cmd` (line 766) but the INSERT
runs in `ScrimView._post_scrim` (line 555) at the end of the interactive
selection flow, which is a separate handler invocation with no re-check.
Trace: user 10 starts `/scrim` twice on an empty store — both guard checks
pass (first conjunct; the store is still empty at both checks) — then both
flows complete their inserts, leaving user 10 with TWO open scrims (second
conjunct). -/
theorem double_create_cex :
    create_scrim_cmd_check { scrims := [], acks := [] } 10 = false ∧
    ((create_scrim
        ((create_scrim { scrims := [], acks := [] }
          (sampleData 1 10 [['A']] [['G']])).1)
        (sampleData 2 10 [['A']] [['G']])).1.scrims.filter
      (fun s => s.requester_id == 10
        && activeStatuses.contains s.status)).length = 2 := by
  exact ⟨rfl, rfl⟩

/-- C6: given that the scrim record exists, `match_completed` rejects with
`NotParticipant` iff the actor is neither of the two captured parties;
rejects with `Conflict` iff the actor is a participant and the status is
not `booked`; rejects with `AlreadyConfirmed` iff the actor is a
participant, the status is `booked`, and the actor already has an ack on
record; and every one of these rejections leaves the store unchanged. -/
theorem completion_rejection_cases (db : DB)
    (scrim_id vr vc actor now : Int) (v : ScrimView)
    (hfind : get_scrim_by_id db scrim_id = some v) :
    ((match_completed db scrim_id vr vc actor now).2
        = CompletionResult.notParticipant
      ↔ (actor ≠ vr ∧ actor ≠ vc)) ∧
    ((match_completed db scrim_id vr vc actor now).2
        = CompletionResult.conflict
      ↔ ((actor = vr ∨ actor = vc) ∧ v.status ≠ "booked")) ∧
    ((match_completed db scrim_id vr vc actor now).2
        = CompletionResult.alreadyConfirmed
      ↔ ((actor = vr ∨ actor = vc) ∧ v.status = "booked"
          ∧ user_has_verified db scrim_id actor = true)) ∧
    (((match_completed db scrim_id vr vc actor now).2
          = CompletionResult.notParticipant ∨
      (match_completed db scrim_id vr vc actor now).2
          = CompletionResult.conflict ∨
      (match_completed db scrim_id vr vc actor now).2
          = CompletionResult.alreadyConfirmed) →
      (match_completed db scrim_id vr vc actor now).1 = db) := by
  by_cases hp : actor ≠ vr ∧ actor ≠ vc
  · have hp2 : ¬(actor = vr ∨ actor = vc) := by tauto
    simp [match_completed, hp, hp2]
  · have hp2 : (actor = vr ∨ actor = vc) := by tauto
    by_cases hs : v.status = "booked"
    · by_cases hv : user_has_verified db scrim_id actor = true
      · simp [match_completed, hp, hfind, hs, hv, hp2]
      · have hv' : user_has_verified db scrim_id actor = false :=
          Bool.eq_false_iff.mpr hv
        have hany : (db.acks.any (fun a => a.scrim_id == scrim_id
            && a.user_id == actor)) = false := hv'
        have hins : (add_verification db scrim_id actor now).2 = true := by
          simp [add_verification, hany]
        have hns : ¬ (v.status ≠ "booked") := by simp [hs]
        simp only [match_completed, if_neg hp, hfind, if_neg hns, hv',
          Bool.false_eq_true, if_false, hins, Bool.not_true]
        by_cases hc : get_verification_count
            (add_verification db scrim_id actor now).1 scrim_id ≥ 2
        · simp [hc, hs, hp2, hv', hp]
        · simp [hc, hs, hp2, hv', hp]
    · simp [match_completed, hp, hfind, hs, hp2]

/-- Commuting `find?` by id across a status-only update. -/
lemma find?_update_none (db : DB) (tid scrim_id : Int) (st : String) :
    (update_scrim_status db tid st none).scrims.find?
      (fun s => s.id == scrim_id)
    = (db.scrims.find? (fun s => s.id == scrim_id)).map
        (fun s => if s.id = tid then { s with status := st } else s) :=
  find?_map_invariant _ _ _ (fun s => by
    by_cases h : s.id = tid <;> simp [h])

/-- Commuting `find?` by id across a status-and-counterpart update. -/
lemma find?_update_some (db : DB) (tid scrim_id b : Int) (st : String) :
    (update_scrim_status db tid st (some b)).scrims.find?
      (fun s => s.id == scrim_id)
    = (db.scrims.find? (fun s => s.id == scrim_id)).map
        (fun s => if s.id = tid then
          { s with status := st, booked_by := some b } else s) :=
  find?_map_invariant _ _ _ (fun s => by
    by_cases h : s.id = tid <;> simp [h])

/-- Commuting `find?` by id across the cascade. -/
lemma find?_expire (db : DB) (uids : List (Option Int)) (ex : Option Int)
    (scrim_id : Int) :
    (expire_user_scrims db uids ex).1.scrims.find?
      (fun s => s.id == scrim_id)
    = (db.scrims.find? (fun s => s.id == scrim_id)).map
        (fun s => if ((db.scrims.filter (fun t =>
            uids.contains (some t.requester_id) && t.status == "open" &&
              (match ex with
               | some e => t.id != e
               | none => true))).any (fun m => m.id == s.id)) then
          { s with status := "expired" } else s) := by
  simp only [expire_user_scrims]
  split
  · rename_i hu
    have : uids = [] := List.isEmpty_iff.mp hu
    subst this
    simp only [List.contains_nil, Bool.false_and, List.filter_false,
      List.any_nil, Bool.false_eq_true, if_false]
    cases db.scrims.find? (fun s => s.id == scrim_id) <;> rfl
  · rw [foldl_update_eq_map]
    exact find?_map_invariant _ _ _ (fun s => by
      have : (if ((db.scrims.filter (fun t =>
          uids.contains (some t.requester_id) && t.status == "open" &&
            (match ex with
             | some e => t.id != e
             | none => true))).any (fun m => m.id == s.id)) then
          ({ s with status := "expired" } : Scrim) else s).id = s.id := by
        split <;> rfl
      rw [this])

/-- After setting a row to `'played'` and running the cascade with that
row excluded, the row's stored status is `'played'` (when it exists). -/
lemma scrim_status_update_then_cascade (db : DB) (scrim_id : Int)
    (uids : List (Option Int)) :
    scrim_status (expire_user_scrims
        (update_scrim_status db scrim_id "played" none) uids
        (some scrim_id)).1 scrim_id
      = (db.scrims.find? (fun s => s.id == scrim_id)).map
          (fun _ => "played") := by
  simp only [scrim_status]
  rw [find?_expire, find?_update_none]
  cases hrow : db.scrims.find? (fun s => s.id == scrim_id) with
  | none => rfl
  | some row =>
    have hid : row.id = scrim_id := by
      have := List.find?_some hrow
      simpa using this
    have hnm : ∀ (l : List Scrim) (i : Int), i = scrim_id →
        ((l.filter (fun t => uids.contains (some t.requester_id)
            && t.status == "open" && (t.id != scrim_id))).any
          (fun m => m.id == i)) = false := by
      intro l i hi
      apply List.any_eq_false.mpr
      intro m hm
      have hpred := (List.mem_filter.mp hm).2
      rw [Bool.and_eq_true, Bool.and_eq_true] at hpred
      have hmne : m.id ≠ scrim_id := by simpa using hpred.2
      simp [hi, hmne]
    simp only [Option.map_some']
    rw [if_pos hid]
    simp only [Option.map_some']
    rw [if_neg (by
      rw [hnm (update_scrim_status db scrim_id "played" none).scrims
        row.id hid]
      simp)]

/-- C4: for a booked scrim with no acks yet, the two participants'
completion confirmations behave as claimed: the first ack is recorded and
answered with "waiting" while the status stays `booked`; the second ack
completes and the scrim becomes `played` — exactly once, because the whole
decision (participant check, status check, duplicate check, insert, count,
update) runs with no `await` in between, so even near-simultaneous button
presses are serialized by the event loop and only the call that sees
ack count 2 performs the `played` transition. -/
theorem completion_two_acks_played_once (db : DB)
    (scrim_id req ch n1 n2 : Int) (v : ScrimView)
    (hfind : get_scrim_by_id db scrim_id = some v)
    (hst : v.status = "booked")
    (hrc : req ≠ ch)
    (hcount : get_verification_count db scrim_id = 0) :
    (match_completed db scrim_id req ch req n1).2
      = CompletionResult.waiting ∧
    scrim_status (match_completed db scrim_id req ch req n1).1 scrim_id
      = some "booked" ∧
    (match_completed (match_completed db scrim_id req ch req n1).1
        scrim_id req ch ch n2).2 = CompletionResult.completed ∧
    scrim_status (match_completed (match_completed db scrim_id req ch req n1).1
        scrim_id req ch ch n2).1 scrim_id = some "played" := by
  have hrowex : ∃ row, db.scrims.find? (fun s => s.id == scrim_id) = some row
      ∧ row.status = "booked" := by
    cases hrowE : db.scrims.find? (fun s => s.id == scrim_id) with
    | none =>
      rw [get_scrim_by_id, hrowE] at hfind
      exact absurd hfind (by simp)
    | some row =>
      refine ⟨row, rfl, ?_⟩
      rw [get_scrim_by_id, hrowE] at hfind
      simp only [Option.some.injEq] at hfind
      rw [← hfind] at hst
      exact hst
  obtain ⟨row, hrow, hrowst⟩ := hrowex
  have hempty : db.acks.filter (fun a => a.scrim_id == scrim_id) = [] :=
    List.length_eq_zero.mp hcount
  have hnot := List.filter_eq_nil_iff.mp hempty
  have hanyu : ∀ u : Int, (db.acks.any
      (fun a => a.scrim_id == scrim_id && a.user_id == u)) = false := fun u =>
    List.any_eq_false.mpr (fun a ha => by
      simp only [Bool.and_eq_true, not_and]
      intro h _
      exact (hnot a ha) h)
  have hp1 : ¬(req ≠ req ∧ req ≠ ch) := by simp
  have hp2 : ¬(ch ≠ req ∧ ch ≠ ch) := by simp
  have hns : ¬(v.status ≠ "booked") := by simp [hst]
  have hreqch : (req == ch) = false := by simpa using hrc
  have hfirst : match_completed db scrim_id req ch req n1
      = ({ scrims := db.scrims, acks := db.acks ++
          [{ scrim_id := scrim_id, user_id := req, verified_at := n1 }] },
        CompletionResult.waiting) := by
    simp only [match_completed, if_neg hp1, hfind, if_neg hns,
      user_has_verified, hanyu req, Bool.false_eq_true, if_false,
      add_verification, Bool.not_true, get_verification_count,
      List.filter_append, hempty]
    simp [List.filter]
  refine ⟨by rw [hfirst], ?_, ?_, ?_⟩
  · rw [hfirst]
    simp [scrim_status, hrow, hrowst]
  · rw [hfirst]
    simp only [match_completed, if_neg hp2, get_scrim_by_id, hrow,
      user_has_verified, List.any_append, hanyu ch, add_verification,
      get_verification_count, List.filter_append, hempty]
    simp [List.filter, hreqch, hrowst]
  · rw [hfirst]
    simp only [match_completed, if_neg hp2, get_scrim_by_id, hrow,
      user_has_verified, List.any_append, hanyu ch, add_verification,
      get_verification_count, List.filter_append, hempty]
    simp only [List.filter, hreqch, hrowst]
    simp [scrim_status_update_then_cascade, hrow, hrowst, hreqch]

/-- C4 witness: requester 10 and challenger 20 confirm completion of
booked scrim 1, in that order. -/
theorem completion_two_acks_played_once_w :
    (match_completed
      { scrims := [sampleScrim 1 10 "booked" (some 20) 0], acks := [] }
      1 10 20 10 3).2 = CompletionResult.waiting ∧
    scrim_status (match_completed
      { scrims := [sampleScrim 1 10 "booked" (some 20) 0], acks := [] }
      1 10 20 10 3).1 1 = some "booked" ∧
    (match_completed (match_completed
      { scrims := [sampleScrim 1 10 "booked" (some 20) 0], acks := [] }
      1 10 20 10 3).1 1 10 20 20 4).2 = CompletionResult.completed ∧
    scrim_status (match_completed (match_completed
      { scrims := [sampleScrim 1 10 "booked" (some 20) 0], acks := [] }
      1 10 20 10 3).1 1 10 20 20 4).1 1 = some "played" :=
  completion_two_acks_played_once
    { scrims := [sampleScrim 1 10 "booked" (some 20) 0], acks := [] }
    1 10 20 3 4 _ rfl rfl (by decide) rfl

/-- C6 witness: with booked scrim 1 between 10 and 20, an outsider
(user 30) is rejected as a non-participant and the store is unchanged. -/
theorem completion_rejection_cases_w :
    (match_completed
      { scrims := [sampleScrim 1 10 "booked" (some 20) 0], acks := [] }
      1 10 20 30 5).2 = CompletionResult.notParticipant ∧
    (match_completed
      { scrims := [sampleScrim 1 10 "booked" (some 20) 0], acks := [] }
      1 10 20 30 5).1
      = { scrims := [sampleScrim 1 10 "booked" (some 20) 0], acks := [] } := by
  have h := completion_rejection_cases
    { scrims := [sampleScrim 1 10 "booked" (some 20) 0], acks := [] }
    1 10 20 30 5 _ rfl
  have h1 := h.1.mpr (by decide)
  exact ⟨h1, h.2.2.2 (Or.inl h1)⟩

/-- Inverting `get_scrim_by_id`: the underlying row. -/
lemma find?_of_get_scrim_by_id (db : DB) (scrim_id : Int) (v : ScrimView)
    (h : get_scrim_by_id db scrim_id = some v) :
    ∃ row, db.scrims.find? (fun s => s.id == scrim_id) = some row
      ∧ row.status = v.status ∧ row.id = scrim_id := by
  cases hrowE : db.scrims.find? (fun s => s.id == scrim_id) with
  | none =>
    rw [get_scrim_by_id, hrowE] at h
    exact absurd h (by simp)
  | some row =>
    refine ⟨row, rfl, ?_, ?_⟩
    · rw [get_scrim_by_id, hrowE] at h
      simp only [Option.some.injEq] at h
      rw [← h]
    · simpa using List.find?_some hrowE

/-- C1 amended: the handlers that start from a status check — booking
(open→pending), cancel (open→cancelled) and completion (booked→played) —
reject with a conflict-style result and leave the store unchanged when the
record they read is not in the precondition status, and apply the
transition when it is.  The ready-check resolutions (pending→booked,
pending→open) are applied with NO precondition check (the revert
conjunct shows the status is overwritten whatever it was).  No check is
atomic with its update — the booking handler awaits `bot.fetch_user`
between them — so two attempts racing on the same open record BOTH pass
the check and both apply; neither observes a conflict (last conjunct). -/
theorem transition_precondition_checks :
    (∀ (db : DB) (msg_id vr a : Int) (v : ScrimView),
      get_scrim_by_id db msg_id = some v → a ≠ vr → v.status ≠ "open" →
      book_button db msg_id vr a = (db, BookResult.notAvailable)) ∧
    (∀ (db : DB) (msg_id vr a : Int) (v : ScrimView),
      get_scrim_by_id db msg_id = some v → a ≠ vr → v.status = "open" →
      book_button db msg_id vr a
        = (update_scrim_status db msg_id "pending" (some a),
           BookResult.ok)) ∧
    (∀ (db : DB) (u : Int) (s : Scrim),
      get_active_scrim_for_user db u = some s → s.status ≠ "open" →
      cancel_scrim db u = (db, CancelResult.conflictNotOpen)) ∧
    (∀ (db : DB) (u : Int) (s : Scrim),
      get_active_scrim_for_user db u = some s → s.status = "open" →
      cancel_scrim db u
        = (update_scrim_status db s.id "cancelled" none, CancelResult.ok)) ∧
    (∀ (db : DB) (scrim_id vr vc a now : Int) (v : ScrimView),
      get_scrim_by_id db scrim_id = some v → (a = vr ∨ a = vc) →
      v.status ≠ "booked" →
      match_completed db scrim_id vr vc a now
        = (db, CompletionResult.conflict)) ∧
    (∀ (db : DB) (scrim_id : Int),
      (ready_check_timeout db scrim_id).scrims
        = db.scrims.map (fun s =>
            if s.id = scrim_id then { s with status := "open" } else s)) ∧
    (∀ (db : DB) (msg_id vr a b : Int) (v : ScrimView),
      get_scrim_by_id db msg_id = some v → v.status = "open" →
      a ≠ vr → b ≠ vr →
      book_button_check db msg_id vr a = none ∧
      book_button_check db msg_id vr b = none ∧
      scrim_status (book_button_commit (book_button_commit db msg_id a)
        msg_id b) msg_id = some "pending" ∧
      scrim_booked_by (book_button_commit (book_button_commit db msg_id a)
        msg_id b) msg_id = some (some b)) := by
  refine ⟨?_, ?_, ?_, ?_, ?_, ?_, ?_⟩
  · intro db msg_id vr a v hfind ha hs
    have hb : (a == vr) = false := by simpa using ha
    simp [book_button, book_button_check, hb, hfind, hs]
  · intro db msg_id vr a v hfind ha hs
    have hb : (a == vr) = false := by simpa using ha
    have hns : ¬(v.status ≠ "open") := by simp [hs]
    simp [book_button, book_button_check, book_button_commit, hb, hfind,
      hns]
  · intro db u s hact hs
    simp [cancel_scrim, hact, hs]
  · intro db u s hact hs
    have hns : ¬(s.status ≠ "open") := by simp [hs]
    simp [cancel_scrim, hact, hns]
  · intro db scrim_id vr vc a now v hfind hp hs
    have hp' : ¬(a ≠ vr ∧ a ≠ vc) := by tauto
    simp [match_completed, hp', hfind, hs]
  · intro db scrim_id
    rfl
  · intro db msg_id vr a b v hfind hs ha hb
    have hba : (a == vr) = false := by simpa using ha
    have hbb : (b == vr) = false := by simpa using hb
    have hns : ¬(v.status ≠ "open") := by simp [hs]
    obtain ⟨row, hrow, _, hid⟩ := find?_of_get_scrim_by_id db msg_id v hfind
    refine ⟨by simp [book_button_check, hba, hfind, hns],
            by simp [book_button_check, hbb, hfind, hns], ?_, ?_⟩
    · rw [scrim_status, book_button_commit, book_button_commit,
        find?_update_some, find?_update_some, hrow]
      simp [hid]
    · rw [scrim_booked_by, book_button_commit, book_button_commit,
        find?_update_some, find?_update_some, hrow]
      simp [hid]

/-- C1 amended witness: the booking, cancel and completion handlers at a
pending record (wrong status for all three) reject and leave the store
unchanged. -/
theorem transition_precondition_checks_w :
    book_button
      { scrims := [sampleScrim 1 10 "pending" (some 20) 0], acks := [] }
      1 10 30
      = ({ scrims := [sampleScrim 1 10 "pending" (some 20) 0], acks := [] },
         BookResult.notAvailable) ∧
    cancel_scrim
      { scrims := [sampleScrim 1 10 "pending" (some 20) 0], acks := [] }
      10
      = ({ scrims := [sampleScrim 1 10 "pending" (some 20) 0], acks := [] },
         CancelResult.conflictNotOpen) ∧
    match_completed
      { scrims := [sampleScrim 1 10 "pending" (some 20) 0], acks := [] }
      1 10 20 10 5
      = ({ scrims := [sampleScrim 1 10 "pending" (some 20) 0], acks := [] },
         CompletionResult.conflict) := by
  have h := transition_precondition_checks
  exact ⟨h.1 _ 1 10 30 _ rfl (by decide) (by decide),
         h.2.2.1 _ 10 _ rfl (by decide),
         h.2.2.2.2.1 _ 1 10 20 10 5 _ rfl (Or.inl rfl) (by decide)⟩

/-- C1 counterexample to the claim as stated.  First conjunct: the
pending→open transition (the ready-check revert, which the claim says must
fail with `Conflict` from any status other than `pending`) is applied to a
`booked` record and silently turns it `open` — no conflict, record
changed.  Remaining conjuncts: two challengers (20 and 30) race to book
the same open scrim; the handler awaits `bot.fetch_user` (line 580)
between its status check and its update, so both checks run against the
unmodified store and pass, then both updates apply — both attempts
succeed and neither observes `Conflict`, the second silently overwriting
`booked_by`. -/
theorem transition_conflict_claim_cex :
    (scrim_status (ready_check_timeout
        { scrims := [sampleScrim 1 10 "booked" (some 20) 0], acks := [] } 1) 1
      = some "open") ∧
    (book_button_check
        { scrims := [sampleScrim 1 10 "open" none 0], acks := [] } 1 10 20
      = none) ∧
    (book_button_check
        { scrims := [sampleScrim 1 10 "open" none 0], acks := [] } 1 10 30
      = none) ∧
    (scrim_status (book_button_commit (book_button_commit
        { scrims := [sampleScrim 1 10 "open" none 0], acks := [] } 1 20) 1 30)
        1 = some "pending") ∧
    (scrim_booked_by (book_button_commit (book_button_commit
        { scrims := [sampleScrim 1 10 "open" none 0], acks := [] } 1 20) 1 30)
        1 = some (some 30)) := by
  exact ⟨rfl, rfl, rfl, rfl, rfl⟩

/-- C2 divergence: on a ready-check timeout the scrim does go from
`pending` back to `open`, but `booked_by` is NOT cleared.  The revert call
(`src/main.py` line 651) passes `booked_by = None`, and
`update_scrim_status` interprets `None` as "do not touch the `booked_by`
column" (lines 149-158), so the challenger's id stays on the record.  The
call sites at lines 619 and 651 pass `None` explicitly even though `None`
is already the default, which together with the spec shows the intent was
to clear the field: the code diverges from that intent. -/
theorem revert_keeps_booked_by :
    scrim_status
      (ready_check_timeout
        { scrims := [sampleScrim 1 10 "pending" (some 42) 0], acks := [] } 1)
      1 = some "open" ∧
    scrim_booked_by
      (ready_check_timeout
        { scrims := [sampleScrim 1 10 "pending" (some 42) 0], acks := [] } 1)
      1 = some (some 42) := by
  constructor <;> rfl
